import Mathlib

/-!
Verification of the pg-boss-prisma submission core: a shallow embedding of
`src/attorney.ts` (option resolution) and `src/test.ts` (`PrismaPGBoss.createJob`
and its send helpers), with theorems settling the frozen claims about them.

Modelling conventions:
- JavaScript numbers that the code treats as integers are `Int`; JS truthiness
  of a possibly-absent number is `truthyI` (present and nonzero).
- A possibly-absent object field is an `Option`; `field in obj` is `isSome`.
- `assert(cond, msg)` is an early `Except.error msg` return.
- In-place mutation of the options bag is value-passing, except for the claims
  about caller-object mutation, which use an explicit heap (`Heap`, below).
-/

namespace PgBossPrisma

/-! ### Warning side-channel (attorney.ts `WARNINGS`, `emitWarning`, `warnClockSkew`) -/

inductive WarningKind
  | expireInRemoved
  | clockSkew
  | cronDisabled
  deriving DecidableEq

structure WarnState where
  expireInRemovedWarned : Bool := false
  clockSkewWarned : Bool := false
  cronDisabledWarned : Bool := false
  deriving DecidableEq

def WarnState.warned (s : WarnState) : WarningKind → Bool
  | .expireInRemoved => s.expireInRemovedWarned
  | .clockSkew => s.clockSkewWarned
  | .cronDisabled => s.cronDisabledWarned

def WarnState.setWarned (s : WarnState) : WarningKind → WarnState
  | .expireInRemoved => { s with expireInRemovedWarned := true }
  | .clockSkew => { s with clockSkewWarned := true }
  | .cronDisabled => { s with cronDisabledWarned := true }

/-- `emitWarning` (attorney.ts:723): emit when forced or not yet warned; the
returned `Bool` records whether `process.emitWarning` fired. -/
def emitWarning (s : WarnState) (k : WarningKind) (force : Bool) : WarnState × Bool :=
  if force || !(s.warned k) then (s.setWarned k, true) else (s, false)

/-- `warnClockSkew` (attorney.ts:719): always forces emission. -/
def warnClockSkew (s : WarnState) : WarnState × Bool :=
  emitWarning s .clockSkew true

/-- A process-lifetime trace of `emitWarning` calls: the list of emission flags. -/
def runEmits : WarnState → List (WarningKind × Bool) → List Bool
  | _, [] => []
  | s, (k, f) :: rest =>
    (emitWarning s k f).2 :: runEmits (emitWarning s k f).1 rest

/-- Number of emissions attributable to non-forced requests of kind `k`. -/
def countKindEmits (k : WarningKind) : List (WarningKind × Bool) → List Bool → Nat
  | [], _ => 0
  | _ :: _, [] => 0
  | (k1, f1) :: rs, e :: es =>
    (if k1 == k && !f1 && e then 1 else 0) + countKindEmits k rs es

/-! ### The option bags (attorney.ts `JobOptions`/`SendOptions`, `ConstructorOptionsUpdated`) -/

/-- A JS `startAfter` value: number, string, or a `Date` (carrying its ISO form). -/
inductive StartAfterVal
  | num (n : Int)
  | str (s : String)
  | date (iso : String)
  deriving DecidableEq

structure SendOptions where
  priority : Option Int := none
  startAfter : Option StartAfterVal := none
  singletonKey : Option String := none
  useSingletonQueue : Option Bool := none
  singletonSeconds : Option Int := none
  singletonMinutes : Option Int := none
  singletonHours : Option Int := none
  singletonNextSlot : Option Bool := none
  singletonOffset : Option Int := none
  expireIn : Option String := none
  expireInSeconds : Option Int := none
  expireInMinutes : Option Int := none
  expireInHours : Option Int := none
  retentionSeconds : Option Int := none
  retentionMinutes : Option Int := none
  retentionHours : Option Int := none
  retentionDays : Option Int := none
  retryLimit : Option Int := none
  retryDelay : Option Int := none
  retryBackoff : Option Bool := none
  onComplete : Option Bool := none
  keepUntil : Option String := none
  deriving DecidableEq

/-- Queue-level defaults (`ConstructorOptionsUpdated` as consumed by `checkSendArgs`). -/
structure Defaults where
  schema : Option String := none
  retryDelay : Option Int := none
  retryLimit : Option Int := none
  retryBackoff : Option Bool := none
  expireIn : Option String := none
  keepUntil : Option String := none
  onComplete : Option Bool := none
  archiveSeconds : Option Int := none
  deriving DecidableEq

structure Request where
  name : String
  data : String
  options : SendOptions
  deriving DecidableEq

/-! ### JS truthiness helpers -/

def truthyI : Option Int → Bool
  | some v => v != 0
  | none => false

def truthyB : Option Bool → Bool
  | some b => b
  | none => false

def truthyS : Option String → Bool
  | some s => s != ""
  | none => false

/-- JS `a || b` on possibly-absent numbers. -/
def jsOrI (a b : Option Int) : Option Int :=
  if truthyI a then a else b

/-- JS `a || b` on possibly-absent booleans. -/
def jsOrB (a b : Option Bool) : Option Bool :=
  if truthyB a then a else b

/-- JS template interpolation of a possibly-absent number. -/
def jsShowI : Option Int → String
  | some v => toString v
  | none => "undefined"

/-- JS `x && x > 0` on a possibly-absent number. -/
def posI : Option Int → Bool
  | some v => v != 0 && decide (0 < v)
  | none => false

/-! ### Retry (attorney.ts `applyRetryConfig`, lines 482-520) -/

/-- `!("retryDelay" in config) || (Number.isInteger(v) && v && v >= 0)`. -/
def retryDelayOk : Option Int → Bool
  | none => true
  | some v => v != 0 && decide (0 ≤ v)

def retryLimitOk : Option Int → Bool
  | none => true
  | some v => v != 0 && decide (0 ≤ v)

/-- The merged-and-corrected retry triple (delay, limit, backoff) of
`applyRetryConfig` lines 507-519. -/
def retryResolved (c : SendOptions) (d : Defaults) : Option Int × Option Int × Option Bool :=
  let retryDelay := jsOrI (jsOrI c.retryDelay d.retryDelay) (some 0)
  let retryLimit := jsOrI (jsOrI c.retryLimit d.retryLimit) (some 0)
  let retryBackoff := truthyB (jsOrB c.retryBackoff d.retryBackoff)
  let retryDelay := if retryBackoff && !truthyI retryDelay then some 1 else retryDelay
  let retryLimit := if truthyI retryDelay && !truthyI retryLimit then some 1 else retryLimit
  (retryDelay, retryLimit, some retryBackoff)

def applyRetryConfig (c : SendOptions) (d : Defaults) : Except String SendOptions :=
  if ¬ retryDelayOk c.retryDelay then .error "retryDelay must be an integer >= 0"
  else if ¬ retryLimitOk c.retryLimit then .error "retryLimit must be an integer >= 0"
  else .ok { c with
    retryDelay := (retryResolved c d).1
    retryLimit := (retryResolved c d).2.1
    retryBackoff := (retryResolved c d).2.2 }

/-! ### Expiration (attorney.ts `applyExpirationConfig`, lines 442-480) -/

/-- `!(unit in config) || (config.unit && config.unit >= 1)`. -/
def unitOk : Option Int → Bool
  | none => true
  | some v => v != 0 && decide (1 ≤ v)

/-- The `expireIn` ternary chain of lines 468-477. -/
def expireInResolved (c : SendOptions) (d : Option Defaults) : Option String :=
  if c.expireInHours.isSome then some (jsShowI c.expireInHours ++ " hours")
  else if c.expireInMinutes.isSome then some (jsShowI c.expireInMinutes ++ " minutes")
  else if c.expireInSeconds.isSome then some (jsShowI c.expireInSeconds ++ " seconds")
  else match d with
    | some d => d.expireIn
    | none => some "15 minutes"

def applyExpirationConfigW (w : WarnState) (c : SendOptions) (d : Option Defaults) :
    WarnState × Except String SendOptions :=
  let w := if c.expireIn.isSome then (emitWarning w .expireInRemoved false).1 else w
  if ¬ unitOk c.expireInSeconds then
    (w, .error "configuration assert: expireInSeconds must be at least every second")
  else if ¬ unitOk c.expireInMinutes then
    (w, .error "configuration assert: expireInMinutes must be at least every minute")
  else if ¬ unitOk c.expireInHours then
    (w, .error "configuration assert: expireInHours must be at least every hour")
  else (w, .ok { c with expireIn := expireInResolved c d })

/-! ### Retention (attorney.ts `applyRetentionConfig`, lines 398-440) -/

/-- The `keepUntil` ternary chain of lines 426-437. -/
def keepUntilResolved (c : SendOptions) (d : Option Defaults) : Option String :=
  if c.retentionDays.isSome then some (jsShowI c.retentionDays ++ " days")
  else if c.retentionHours.isSome then some (jsShowI c.retentionHours ++ " hours")
  else if c.retentionMinutes.isSome then some (jsShowI c.retentionMinutes ++ " minutes")
  else if c.retentionSeconds.isSome then some (jsShowI c.retentionSeconds ++ " seconds")
  else match d with
    | some d => d.keepUntil
    | none => some "14 days"

def applyRetentionConfig (c : SendOptions) (d : Option Defaults) : Except String SendOptions :=
  if ¬ unitOk c.retentionSeconds then
    .error "configuration assert: retentionSeconds must be at least every second"
  else if ¬ unitOk c.retentionMinutes then
    .error "configuration assert: retentionMinutes must be at least every minute"
  else if ¬ unitOk c.retentionHours then
    .error "configuration assert: retentionHours must be at least every hour"
  else if ¬ unitOk c.retentionDays then
    .error "configuration assert: retentionDays must be at least every day"
  else .ok { c with keepUntil := keepUntilResolved c d }

/-! ### Completion flag (attorney.ts `applyCompletionConfig`, lines 382-396) -/

def applyCompletionConfig (c : SendOptions) (d : Option Defaults) : SendOptions :=
  if c.onComplete.isSome then c
  else { c with onComplete := match d with
    | some d => d.onComplete
    | none => some false }

/-! ### Singleton key rewriting (attorney.ts `applySingletonKeyConfig`, lines 169-178) -/

def SINGLETON_QUEUE_KEY : String := "__pgboss__singleton_queue"

def applySingletonKeyConfig (options : SendOptions) : SendOptions :=
  let options :=
    if truthyS options.singletonKey && truthyB options.useSingletonQueue
        && options.singletonKey != some SINGLETON_QUEUE_KEY then
      { options with singletonKey := some (SINGLETON_QUEUE_KEY ++ options.singletonKey.getD "") }
    else options
  { options with useSingletonQueue := none }

/-! ### startAfter and singleton-window normalization (attorney.ts lines 131-146) -/

def normStartAfter : Option StartAfterVal → Option StartAfterVal
  | some (.date iso) => some (.str iso)
  | some (.num n) => if 0 < n then some (.str (toString n)) else none
  | some (.str s) => some (.str s)
  | none => none

/-- Lines 140-146: collapse the three singleton window units into
`singletonSeconds` (hours beat minutes beat seconds). -/
def collapseSingleton (singletonSeconds singletonMinutes singletonHours : Option Int) :
    Option Int :=
  if posI singletonHours then some (singletonHours.getD 0 * 60 * 60)
  else if posI singletonMinutes then some (singletonMinutes.getD 0 * 60)
  else if posI singletonSeconds then some (singletonSeconds.getD 0 * 60)
  else none

/-- The condition of the archive-interval assert at lines 148-152, over the raw
(pre-collapse) `singletonSeconds` option and `defaults.archiveSeconds`. -/
def singletonArchiveOk (singletonSeconds archiveSeconds : Option Int) : Bool :=
  !truthyI singletonSeconds
    || (truthyI archiveSeconds && decide (singletonSeconds.getD 0 ≤ archiveSeconds.getD 0))

def throttleMsg (singletonSeconds archiveSeconds : Option Int) : String :=
  "throttling interval " ++ jsShowI singletonSeconds ++
    "s cannot exceed archive interval " ++ jsShowI archiveSeconds ++ "s"

/-! ### checkSendArgs (attorney.ts lines 73-155) -/

def checkSendArgsW (w : WarnState) (name dataIn : String) (optionsIn : Option SendOptions)
    (defaults : Defaults) : WarnState × Except String Request :=
  let options := optionsIn.getD {}
  if name == "" then (w, .error "boss requires all jobs to have a queue name")
  else
  let options := { options with priority := jsOrI options.priority (some 0) }
  match applyRetryConfig options defaults with
  | .error e => (w, .error e)
  | .ok options =>
  match applyExpirationConfigW w options (some defaults) with
  | (w, .error e) => (w, .error e)
  | (w, .ok options) =>
  match applyRetentionConfig options (some defaults) with
  | .error e => (w, .error e)
  | .ok options =>
  let options := applyCompletionConfig options (some defaults)
  let options := applySingletonKeyConfig options
  let rawStartAfter := options.startAfter
  let rawSeconds := options.singletonSeconds
  let rawMinutes := options.singletonMinutes
  let rawHours := options.singletonHours
  let options := { options with startAfter := normStartAfter rawStartAfter }
  let options := { options with
    singletonSeconds := collapseSingleton rawSeconds rawMinutes rawHours }
  if ¬ singletonArchiveOk rawSeconds defaults.archiveSeconds then
    (w, .error (throttleMsg rawSeconds defaults.archiveSeconds))
  else (w, .ok { name := name, data := dataIn, options := options })

/-! ### The enqueue engine (test.ts `PrismaPGBoss.createJob`, lines 240-391) -/

/-- Module-level `pgBossConfig` of test.ts lines 118-123 (statically assigned). -/
structure PgBossCfg where
  keepUntil : String
  expireIn : String

def pgBossConfig : PgBossCfg := { keepUntil := "14 days", expireIn := "15 minutes" }

/-- The 14 bind parameters of `createJob`'s insert statement. -/
structure InsertValues where
  id : String
  name : String
  priority : Option Int
  retryLimit : Option Int
  startAfter : Option StartAfterVal
  expireIn : String
  data : String
  singletonKey : Option String
  singletonSeconds : Option Int
  singletonOffset : Int
  retryDelay : Option Int
  retryBackoff : Option Bool
  keepUntil : String
  onComplete : Bool
  deriving DecidableEq

/-- `createJob` lines 246-307: its own keepUntil/expireIn chains, the
`singletonOffset` presence cast, the destructuring defaults, and the values tuple. -/
def buildValues (id name dataIn : String) (optionsIn : Option SendOptions) : InsertValues :=
  match optionsIn with
  | some options =>
    let keepUntil :=
      if options.retentionDays.isSome then jsShowI options.retentionDays ++ " days"
      else if options.retentionHours.isSome then jsShowI options.retentionHours ++ " hours"
      else if options.retentionMinutes.isSome then jsShowI options.retentionMinutes ++ " minutes"
      else if options.retentionSeconds.isSome then jsShowI options.retentionSeconds ++ " seconds"
      else pgBossConfig.keepUntil
    let expireIn :=
      if options.expireInHours.isSome then jsShowI options.expireInHours ++ " hours"
      else if options.expireInMinutes.isSome then jsShowI options.expireInMinutes ++ " minutes"
      else if options.expireInSeconds.isSome then jsShowI options.expireInSeconds ++ " seconds"
      else pgBossConfig.expireIn
    let singletonOffset : Int := if options.singletonOffset.isSome then 1 else 0
    { id := id, name := name, priority := options.priority,
      retryLimit := options.retryLimit, startAfter := options.startAfter,
      expireIn := expireIn, data := dataIn, singletonKey := options.singletonKey,
      singletonSeconds := options.singletonSeconds, singletonOffset := singletonOffset,
      retryDelay := options.retryDelay, retryBackoff := options.retryBackoff,
      keepUntil := keepUntil, onComplete := options.onComplete.getD false }
  | none =>
    { id := id, name := name, priority := none, retryLimit := none, startAfter := none,
      expireIn := "15 minutes", data := dataIn, singletonKey := none,
      singletonSeconds := none, singletonOffset := 0, retryDelay := none,
      retryBackoff := none, keepUntil := "14 days", onComplete := false }

/-- A persisted job row (the columns of the insert, with `singletonOn` derived). -/
structure JobRow where
  id : String
  name : String
  priority : Option Int
  state : String
  retryLimit : Option Int
  startAfter : Option StartAfterVal
  expireIn : String
  data : String
  singletonKey : Option String
  singletonOn : Option Int
  retryDelay : Option Int
  retryBackoff : Option Bool
  keepUntil : String
  onComplete : Bool
  deriving DecidableEq

/-- The SQL `CASE WHEN $9 IS NOT NULL THEN 'epoch' + 1s * ($9 * floor((epoch(now) + $10) / $9))`
of test.ts line 376, as seconds since epoch. -/
def singletonOnOf (singletonSeconds : Option Int) (singletonOffset nowEpoch : Int) :
    Option Int :=
  match singletonSeconds with
  | some s => some (s * Int.fdiv (nowEpoch + singletonOffset) s)
  | none => none

def buildRow (v : InsertValues) (nowEpoch : Int) : JobRow :=
  { id := v.id, name := v.name, priority := v.priority, state := "created",
    retryLimit := v.retryLimit, startAfter := v.startAfter, expireIn := v.expireIn,
    data := v.data, singletonKey := v.singletonKey,
    singletonOn := singletonOnOf v.singletonSeconds v.singletonOffset nowEpoch,
    retryDelay := v.retryDelay, retryBackoff := v.retryBackoff,
    keepUntil := v.keepUntil, onComplete := v.onComplete }

/-- Modelled from the spec: the job table's uniqueness constraint over
`(name, singletonKey, singletonOn)` "where singletonKey is non-null"
(spec section 4.2 step 5). The index itself is created by the external pg-boss
schema setup and is not part of src/; as a partial SQL unique index it applies
only when the indexed singleton columns are non-null. -/
def conflicts (existing incoming : JobRow) : Bool :=
  existing.name == incoming.name
    && incoming.singletonKey.isSome && existing.singletonKey == incoming.singletonKey
    && incoming.singletonOn.isSome && existing.singletonOn == incoming.singletonOn

/-- `INSERT ... ON CONFLICT DO NOTHING RETURNING id`: the row is appended unless a
conflicting row exists; the generated id is returned exactly when the row lands. -/
def insertRow (table : List JobRow) (r : JobRow) : List JobRow × Option String :=
  if table.any (fun x => conflicts x r) then (table, none) else (table ++ [r], some r.id)

def createJob (table : List JobRow) (nowEpoch : Int) (id name dataIn : String)
    (optionsIn : Option SendOptions) : List JobRow × Option String :=
  insertRow table (buildRow (buildValues id name dataIn optionsIn) nowEpoch)

/-- Rows of `table` that collide with `r` on the singleton discriminator. -/
def matchCount (table : List JobRow) (r : JobRow) : Nat :=
  (table.filter (fun x => conflicts x r)).length

/-! ### The send helpers (test.ts `sendThrottled` / `sendDebounced`, lines 196-238) -/

def sendThrottledResolve (w : WarnState) (cfg : Defaults) (name dataIn : String)
    (optionsIn : Option SendOptions) (seconds : Int) (key : String) :
    WarnState × Except String Request :=
  let options := optionsIn.getD {}
  let options := { options with
    singletonSeconds := some seconds
    singletonNextSlot := some false
    singletonKey := some key }
  checkSendArgsW w name dataIn (some options) cfg

def sendDebouncedResolve (w : WarnState) (cfg : Defaults) (name dataIn : String)
    (optionsIn : Option SendOptions) (seconds : Int) (key : String) :
    WarnState × Except String Request :=
  let options := optionsIn.getD {}
  let options := { options with
    singletonSeconds := some seconds
    singletonNextSlot := some true
    singletonKey := some key }
  checkSendArgsW w name dataIn (some options) cfg

/-- The full throttled send path: resolve, then insert through `createJob`. -/
def sendThrottledRun (w : WarnState) (cfg : Defaults) (name dataIn : String)
    (optionsIn : Option SendOptions) (seconds : Int) (key : String)
    (table : List JobRow) (nowEpoch : Int) (id : String) :
    WarnState × List JobRow × Except String (Option String) :=
  match sendThrottledResolve w cfg name dataIn optionsIn seconds key with
  | (w, .ok r) =>
    let res := createJob table nowEpoch id r.name r.data (some r.options)
    (w, res.1, .ok res.2)
  | (w, .error e) => (w, table, .error e)

def sendDebouncedRun (w : WarnState) (cfg : Defaults) (name dataIn : String)
    (optionsIn : Option SendOptions) (seconds : Int) (key : String)
    (table : List JobRow) (nowEpoch : Int) (id : String) :
    WarnState × List JobRow × Except String (Option String) :=
  match sendDebouncedResolve w cfg name dataIn optionsIn seconds key with
  | (w, .ok r) =>
    let res := createJob table nowEpoch id r.name r.data (some r.options)
    (w, res.1, .ok res.2)
  | (w, .error e) => (w, table, .error e)

/-! ### Heap model of the caller-supplied options object (for the frame claims)

`checkSendArgs` receives a reference to the caller's options object, rebinds its
local to a spread copy (`options = { ...options }`, line 114), and performs every
subsequent in-place mutation on that copy. The heap makes the aliasing explicit:
objects live at indices, the spread is an allocation, and each mutation is a
`List.set` at the copy's index. -/

abbrev Heap := List SendOptions

def checkSendArgsHeap (w : WarnState) (h : Heap) (r : Nat) (name : String)
    (d : Defaults) : WarnState × Heap × Except String Nat :=
  match h.get? r with
  | none => (w, h, .error "options should be an object")
  | some opts =>
    let r1 := h.length
    let h := h ++ [opts]
    if name == "" then (w, h, .error "boss requires all jobs to have a queue name")
    else
    let cur := { opts with priority := jsOrI opts.priority (some 0) }
    let h := h.set r1 cur
    match applyRetryConfig cur d with
    | .error e => (w, h, .error e)
    | .ok cur =>
    let h := h.set r1 cur
    match applyExpirationConfigW w cur (some d) with
    | (w, .error e) => (w, h, .error e)
    | (w, .ok cur) =>
    let h := h.set r1 cur
    match applyRetentionConfig cur (some d) with
    | .error e => (w, h, .error e)
    | .ok cur =>
    let h := h.set r1 cur
    let cur := applyCompletionConfig cur (some d)
    let h := h.set r1 cur
    let cur := applySingletonKeyConfig cur
    let h := h.set r1 cur
    let rawStartAfter := cur.startAfter
    let rawSeconds := cur.singletonSeconds
    let rawMinutes := cur.singletonMinutes
    let rawHours := cur.singletonHours
    let cur := { cur with startAfter := normStartAfter rawStartAfter }
    let h := h.set r1 cur
    let cur := { cur with
      singletonSeconds := collapseSingleton rawSeconds rawMinutes rawHours }
    let h := h.set r1 cur
    if ¬ singletonArchiveOk rawSeconds d.archiveSeconds then
      (w, h, .error (throttleMsg rawSeconds d.archiveSeconds))
    else (w, h, .ok r1)

/-- `checkInsertArgs` (attorney.ts lines 157-167): each job is spread-copied and
only the copy is rewritten by `applySingletonKeyConfig`. -/
def checkInsertArgsHeap : Heap → List Nat → Heap × List Nat
  | h, [] => (h, [])
  | h, r :: rest =>
    let v := (h.get? r).getD {}
    let r1 := h.length
    let h := h ++ [v]
    let h := h.set r1 (applySingletonKeyConfig v)
    let res := checkInsertArgsHeap h rest
    (res.1, r1 :: res.2)

/-! ### Characterization of `checkSendArgsW`

The transformation stages of `checkSendArgs` touch pairwise disjoint field sets,
so the pipeline is equivalent to one validation prefix followed by one composite
record update. `checkSendArgsPure` is that flat form; `checkSendArgsW_snd` proves
it equal to the faithful sequential translation above. -/

def resolvedOptions (o : SendOptions) (d : Defaults) : SendOptions :=
  let o1 := { o with priority := jsOrI o.priority (some 0) }
  let o2 := { o1 with
    retryDelay := (retryResolved o1 d).1
    retryLimit := (retryResolved o1 d).2.1
    retryBackoff := (retryResolved o1 d).2.2 }
  let o3 := { o2 with expireIn := expireInResolved o2 (some d) }
  let o4 := { o3 with keepUntil := keepUntilResolved o3 (some d) }
  let o5 := applyCompletionConfig o4 (some d)
  let o6 := applySingletonKeyConfig o5
  let o7 := { o6 with startAfter := normStartAfter o6.startAfter }
  { o7 with
    singletonSeconds := collapseSingleton o6.singletonSeconds o6.singletonMinutes o6.singletonHours }

def checkSendArgsPure (name dataIn : String) (o : SendOptions) (d : Defaults) :
    Except String Request :=
  if name == "" then .error "boss requires all jobs to have a queue name"
  else if ¬ retryDelayOk o.retryDelay then .error "retryDelay must be an integer >= 0"
  else if ¬ retryLimitOk o.retryLimit then .error "retryLimit must be an integer >= 0"
  else if ¬ unitOk o.expireInSeconds then
    .error "configuration assert: expireInSeconds must be at least every second"
  else if ¬ unitOk o.expireInMinutes then
    .error "configuration assert: expireInMinutes must be at least every minute"
  else if ¬ unitOk o.expireInHours then
    .error "configuration assert: expireInHours must be at least every hour"
  else if ¬ unitOk o.retentionSeconds then
    .error "configuration assert: retentionSeconds must be at least every second"
  else if ¬ unitOk o.retentionMinutes then
    .error "configuration assert: retentionMinutes must be at least every minute"
  else if ¬ unitOk o.retentionHours then
    .error "configuration assert: retentionHours must be at least every hour"
  else if ¬ unitOk o.retentionDays then
    .error "configuration assert: retentionDays must be at least every day"
  else if ¬ singletonArchiveOk o.singletonSeconds d.archiveSeconds then
    .error (throttleMsg o.singletonSeconds d.archiveSeconds)
  else .ok { name := name, data := dataIn, options := resolvedOptions o d }

theorem applyCompletionConfig_singletonSeconds (c : SendOptions) (d : Option Defaults) :
    (applyCompletionConfig c d).singletonSeconds = c.singletonSeconds := by
  unfold applyCompletionConfig
  split <;> rfl

theorem applySingletonKeyConfig_singletonSeconds (c : SendOptions) :
    (applySingletonKeyConfig c).singletonSeconds = c.singletonSeconds := by
  unfold applySingletonKeyConfig
  split <;> rfl

theorem checkSendArgsW_snd (w : WarnState) (name dataIn : String)
    (optionsIn : Option SendOptions) (d : Defaults) :
    (checkSendArgsW w name dataIn optionsIn d).2 =
      checkSendArgsPure name dataIn (optionsIn.getD {}) d := by
  unfold checkSendArgsW checkSendArgsPure applyRetryConfig applyExpirationConfigW
    applyRetentionConfig resolvedOptions
  set o := optionsIn.getD {} with ho
  by_cases h0 : name == "" <;> simp only [h0, Bool.false_eq_true, if_true, if_false]
  by_cases h1 : retryDelayOk o.retryDelay <;>
    by_cases h2 : retryLimitOk o.retryLimit <;>
    simp [h1, h2]
  by_cases h3 : unitOk o.expireInSeconds <;>
    by_cases h4 : unitOk o.expireInMinutes <;>
    by_cases h5 : unitOk o.expireInHours <;>
    simp [h3, h4, h5]
  by_cases h6 : unitOk o.retentionSeconds <;>
    by_cases h7 : unitOk o.retentionMinutes <;>
    by_cases h8 : unitOk o.retentionHours <;>
    by_cases h9 : unitOk o.retentionDays <;>
    simp [h6, h7, h8, h9]
  by_cases hA : singletonArchiveOk o.singletonSeconds d.archiveSeconds <;>
    simp [hA, applyCompletionConfig_singletonSeconds, applySingletonKeyConfig_singletonSeconds]

/-! ### Warning-sink lemmas -/

theorem setWarned_self (s : WarnState) (k : WarningKind) :
    (s.setWarned k).warned k = true := by
  cases k <;> rfl

theorem emitWarning_warned_mono (s : WarnState) (k k1 : WarningKind) (f : Bool)
    (h : s.warned k = true) : ((emitWarning s k1 f).1).warned k = true := by
  unfold emitWarning
  split
  · cases k <;> cases k1 <;>
      simp_all [WarnState.warned, WarnState.setWarned]
  · exact h

theorem emitWarning_emitted_warned (s : WarnState) (k : WarningKind) (f : Bool)
    (h : (emitWarning s k f).2 = true) : ((emitWarning s k f).1).warned k = true := by
  by_cases hcond : (f || !(s.warned k)) = true
  · simp [emitWarning, hcond, setWarned_self]
  · simp [emitWarning, hcond] at h

theorem countKindEmits_zero_of_warned (k : WarningKind) :
    ∀ (reqs : List (WarningKind × Bool)) (s : WarnState), s.warned k = true →
      countKindEmits k reqs (runEmits s reqs) = 0 := by
  intro reqs
  induction reqs with
  | nil => intro s _; rfl
  | cons p rest ih =>
    intro s h
    obtain ⟨k1, f1⟩ := p
    simp only [runEmits, countKindEmits]
    have htail : countKindEmits k rest (runEmits (emitWarning s k1 f1).1 rest) = 0 :=
      ih _ (emitWarning_warned_mono s k k1 f1 h)
    by_cases hk : k1 = k
    · subst hk
      by_cases hf : f1 = false
      · subst hf
        have : (emitWarning s k1 false).2 = false := by
          simp [emitWarning, h]
        simp [this, htail]
      · have hft : f1 = true := by revert hf; cases f1 <;> simp
        subst hft
        simp [htail]
    · have : (k1 == k) = false := by simp [hk]
      simp [this, htail]

theorem countKindEmits_le_one (k : WarningKind) :
    ∀ (reqs : List (WarningKind × Bool)) (s : WarnState),
      countKindEmits k reqs (runEmits s reqs) ≤ 1 := by
  intro reqs
  induction reqs with
  | nil => intro s; simp [countKindEmits, runEmits]
  | cons p rest ih =>
    intro s
    obtain ⟨k1, f1⟩ := p
    simp only [runEmits, countKindEmits]
    by_cases hc : (k1 == k && !f1 && (emitWarning s k1 f1).2) = true
    · have hk : k1 = k := by
        have := hc
        simp only [Bool.and_eq_true, beq_iff_eq] at this
        exact this.1.1
      have he : (emitWarning s k1 f1).2 = true := by
        simp only [Bool.and_eq_true] at hc
        exact hc.2
      have hw : ((emitWarning s k1 f1).1).warned k = true := by
        subst hk
        exact emitWarning_emitted_warned s k1 f1 he
      have htail : countKindEmits k rest (runEmits (emitWarning s k1 f1).1 rest) = 0 :=
        countKindEmits_zero_of_warned k rest _ hw
      simp [hc, htail]
    · have hc0 : (k1 == k && !f1 && (emitWarning s k1 f1).2) = false := by
        revert hc; cases h : (k1 == k && !f1 && (emitWarning s k1 f1).2) <;> simp
      simp only [hc0, if_false, Bool.false_eq_true, zero_add]
      exact ih _

/-- C9. Each warning kind is emitted at most once per process lifetime across any
sequence of non-forced `emitWarning` requests (from resolution or configuration
calls), starting from any warning state; `warnClockSkew` force-emits on every
call; and the warning state never changes the value returned by the resolver
(so a warning can neither alter a result nor raise an error). -/
theorem c9_warnings_once_except_forced_clock_skew :
    (∀ (s : WarnState) (reqs : List (WarningKind × Bool)) (k : WarningKind),
        countKindEmits k reqs (runEmits s reqs) ≤ 1)
    ∧ (∀ s : WarnState, (warnClockSkew s).2 = true)
    ∧ (∀ (w1 w2 : WarnState) (name dataIn : String) (optionsIn : Option SendOptions)
        (d : Defaults),
        (checkSendArgsW w1 name dataIn optionsIn d).2 =
          (checkSendArgsW w2 name dataIn optionsIn d).2) := by
  refine ⟨fun s reqs k => countKindEmits_le_one k reqs s, fun s => rfl, ?_⟩
  intro w1 w2 name dataIn optionsIn d
  rw [checkSendArgsW_snd, checkSendArgsW_snd]

/-! ### Shape lemmas for the resolution pipeline -/

theorem applyCompletionConfig_eq (c : SendOptions) (d : Option Defaults) :
    applyCompletionConfig c d =
      { c with onComplete := if c.onComplete.isSome then c.onComplete
          else match d with
            | some d => d.onComplete
            | none => some false } := by
  unfold applyCompletionConfig
  by_cases h : c.onComplete.isSome <;> simp [h]

theorem applySingletonKeyConfig_eq (c : SendOptions) :
    applySingletonKeyConfig c =
      { c with
        singletonKey := if truthyS c.singletonKey && truthyB c.useSingletonQueue
              && c.singletonKey != some SINGLETON_QUEUE_KEY
            then some (SINGLETON_QUEUE_KEY ++ c.singletonKey.getD "")
            else c.singletonKey
        useSingletonQueue := none } := by
  unfold applySingletonKeyConfig
  by_cases h : (truthyS c.singletonKey && truthyB c.useSingletonQueue
      && c.singletonKey != some SINGLETON_QUEUE_KEY) = true <;> simp [h]

theorem resolvedOptions_retryDelay (o : SendOptions) (d : Defaults) :
    (resolvedOptions o d).retryDelay = (retryResolved o d).1 := by
  simp only [resolvedOptions, applyCompletionConfig_eq, applySingletonKeyConfig_eq]
  try rfl

theorem resolvedOptions_retryLimit (o : SendOptions) (d : Defaults) :
    (resolvedOptions o d).retryLimit = (retryResolved o d).2.1 := by
  simp only [resolvedOptions, applyCompletionConfig_eq, applySingletonKeyConfig_eq]
  try rfl

theorem resolvedOptions_expireIn (o : SendOptions) (d : Defaults) :
    (resolvedOptions o d).expireIn = expireInResolved o (some d) := by
  simp only [resolvedOptions, applyCompletionConfig_eq, applySingletonKeyConfig_eq]
  try rfl

theorem resolvedOptions_singletonSeconds (o : SendOptions) (d : Defaults) :
    (resolvedOptions o d).singletonSeconds =
      collapseSingleton o.singletonSeconds o.singletonMinutes o.singletonHours := by
  simp only [resolvedOptions, applyCompletionConfig_eq, applySingletonKeyConfig_eq]
  try rfl

theorem checkSendArgsPure_ok_inv (name dataIn : String) (o : SendOptions) (d : Defaults)
    (r : Request) (h : checkSendArgsPure name dataIn o d = .ok r) :
    (name == "") = false
    ∧ retryDelayOk o.retryDelay = true
    ∧ retryLimitOk o.retryLimit = true
    ∧ unitOk o.expireInSeconds = true ∧ unitOk o.expireInMinutes = true
    ∧ unitOk o.expireInHours = true
    ∧ unitOk o.retentionSeconds = true ∧ unitOk o.retentionMinutes = true
    ∧ unitOk o.retentionHours = true ∧ unitOk o.retentionDays = true
    ∧ singletonArchiveOk o.singletonSeconds d.archiveSeconds = true
    ∧ r = { name := name, data := dataIn, options := resolvedOptions o d } := by
  unfold checkSendArgsPure at h
  by_cases h0 : (name == "") = true
  · rw [if_pos h0] at h; exact absurd h (by simp)
  rw [if_neg h0] at h
  by_cases h1 : retryDelayOk o.retryDelay = true
  case neg => rw [if_pos (by simp [h1])] at h; exact absurd h (by simp)
  rw [if_neg (by simp [h1])] at h
  by_cases h2 : retryLimitOk o.retryLimit = true
  case neg => rw [if_pos (by simp [h2])] at h; exact absurd h (by simp)
  rw [if_neg (by simp [h2])] at h
  by_cases h3 : unitOk o.expireInSeconds = true
  case neg => rw [if_pos (by simp [h3])] at h; exact absurd h (by simp)
  rw [if_neg (by simp [h3])] at h
  by_cases h4 : unitOk o.expireInMinutes = true
  case neg => rw [if_pos (by simp [h4])] at h; exact absurd h (by simp)
  rw [if_neg (by simp [h4])] at h
  by_cases h5 : unitOk o.expireInHours = true
  case neg => rw [if_pos (by simp [h5])] at h; exact absurd h (by simp)
  rw [if_neg (by simp [h5])] at h
  by_cases h6 : unitOk o.retentionSeconds = true
  case neg => rw [if_pos (by simp [h6])] at h; exact absurd h (by simp)
  rw [if_neg (by simp [h6])] at h
  by_cases h7 : unitOk o.retentionMinutes = true
  case neg => rw [if_pos (by simp [h7])] at h; exact absurd h (by simp)
  rw [if_neg (by simp [h7])] at h
  by_cases h8 : unitOk o.retentionHours = true
  case neg => rw [if_pos (by simp [h8])] at h; exact absurd h (by simp)
  rw [if_neg (by simp [h8])] at h
  by_cases h9 : unitOk o.retentionDays = true
  case neg => rw [if_pos (by simp [h9])] at h; exact absurd h (by simp)
  rw [if_neg (by simp [h9])] at h
  by_cases hA : singletonArchiveOk o.singletonSeconds d.archiveSeconds = true
  case neg => rw [if_pos (by simp [hA])] at h; exact absurd h (by simp)
  rw [if_neg (by simp [hA])] at h
  refine ⟨by simpa using h0, h1, h2, h3, h4, h5, h6, h7, h8, h9, hA, ?_⟩
  exact (Except.ok.inj h).symm

/-! ### Result projections used in claim statements -/

def resolverOk : Except String Request → Bool
  | .ok _ => true
  | .error _ => false

def resolvedSingletonSecondsOf : Except String Request → Option (Option Int)
  | .ok r => some r.options.singletonSeconds
  | .error _ => none

def resolvedExpireInOf : Except String Request → Option (Option String)
  | .ok r => some r.options.expireIn
  | .error _ => none

def resolverErrorOf : Except String Request → Option String
  | .ok _ => none
  | .error e => some e

theorem unitOk_some_true (v : Int) (h : unitOk (some v) = true) : 1 ≤ v := by
  simp only [unitOk, Bool.and_eq_true, decide_eq_true_eq] at h
  exact h.2

/-! ### C1 -/

/-- C1 (code-bug evidence): resolving a request whose only window option is
`singletonSeconds = 5`, against defaults with a generous archive interval,
succeeds and stores `singletonSeconds = 300`: the `else if (singletonSeconds …)`
branch at attorney.ts line 145 multiplies by 60, although the claim — and the
surrounding code (the seconds-denominated column, the assert message
"throttling interval ${singletonSeconds}s", and the SQL that scales the value by
one second) — expects the raw seconds value to be kept. -/
theorem c1_seconds_branch_multiplied_by_sixty :
    resolvedSingletonSecondsOf
      ((checkSendArgsW {} "q" "payload" (some { singletonSeconds := some 5 })
        { archiveSeconds := some 100 }).2) = some (some 300) := by
  rfl

/-! ### C4 -/

/-- C4 (code-bug evidence): a request with `retryDelay = 0` and
`retryBackoff = false` is rejected with the very message that promises zero is
accepted, because the truthiness conjunct `config.retryDelay &&` in
attorney.ts line 489 fails at 0; the claim says this call succeeds and yields
`retryDelay = 0`, `retryLimit = 0`. -/
theorem c4_zero_retry_delay_rejected :
    resolverErrorOf
      ((checkSendArgsW {} "q" "payload"
        (some { retryDelay := some 0, retryBackoff := some false }) {}).2) =
      some "retryDelay must be an integer >= 0" := by
  rfl

/-! ### C3 -/

/-- C3 counterexample: a window given as `singletonMinutes = 120` resolves
successfully to `singletonSeconds = 7200` against an archive interval of 3600
seconds — no `ValidationError` is raised although the resolved window exceeds
the archive interval, refuting the claim that such a resolution fails. -/
theorem c3_counterexample_minutes_window_unchecked :
    resolvedSingletonSecondsOf
      ((checkSendArgsW {} "q" "payload" (some { singletonMinutes := some 120 })
        { archiveSeconds := some 3600 }).2) = some (some 7200)
    ∧ (3600 : Int) < 7200 := by
  exact ⟨rfl, by decide⟩

/-- C3 amended: the archive-interval bound is enforced against the raw
`singletonSeconds` option value only (before unit conversion): every successful
resolution satisfies `singletonArchiveOk` over the raw value, and a positive raw
`singletonSeconds` violating that bound makes resolution fail; windows supplied
via minutes or hours are never compared to the archive interval. -/
theorem c3_amended_raw_seconds_bound (w : WarnState) (name dataIn : String)
    (o : SendOptions) (d : Defaults) :
    (∀ r, (checkSendArgsW w name dataIn (some o) d).2 = .ok r →
      singletonArchiveOk o.singletonSeconds d.archiveSeconds = true)
    ∧ (∀ s : Int, o.singletonSeconds = some s → 0 < s →
        singletonArchiveOk o.singletonSeconds d.archiveSeconds = false →
        resolverOk ((checkSendArgsW w name dataIn (some o) d).2) = false) := by
  constructor
  · intro r h
    rw [checkSendArgsW_snd] at h
    have h2 : checkSendArgsPure name dataIn o d = .ok r := h
    exact (checkSendArgsPure_ok_inv _ _ _ _ _ h2).2.2.2.2.2.2.2.2.2.2.1
  · intro s hs hpos hko
    cases hres : (checkSendArgsW w name dataIn (some o) d).2 with
    | error e => rfl
    | ok r =>
      exfalso
      rw [checkSendArgsW_snd] at hres
      have h2 : checkSendArgsPure name dataIn o d = .ok r := hres
      have := (checkSendArgsPure_ok_inv _ _ _ _ _ h2).2.2.2.2.2.2.2.2.2.2.1
      rw [this] at hko
      simp at hko

theorem c3_amended_raw_seconds_bound_witness :
    ({ singletonSeconds := some 7200 } : SendOptions).singletonSeconds = some 7200
    ∧ (0 : Int) < 7200
    ∧ singletonArchiveOk (({ singletonSeconds := some 7200 } : SendOptions).singletonSeconds)
        (({ archiveSeconds := some 3600 } : Defaults).archiveSeconds) = false
    ∧ resolverOk ((checkSendArgsW {} "q" "payload"
        (some { singletonSeconds := some 7200 }) { archiveSeconds := some 3600 }).2) = false :=
  ⟨rfl, by decide, by decide,
    (c3_amended_raw_seconds_bound {} "q" "payload" { singletonSeconds := some 7200 }
      { archiveSeconds := some 3600 }).2 7200 rfl (by decide) (by decide)⟩

/-! ### C10 -/

theorem resolvedOptions_archive_irrel (o : SendOptions) (d : Defaults) (a1 a2 : Option Int) :
    resolvedOptions o { d with archiveSeconds := a1 } =
      resolvedOptions o { d with archiveSeconds := a2 } := rfl

theorem checkSendArgsPure_archive_irrel (name dataIn : String) (o : SendOptions)
    (d : Defaults) (a1 a2 : Option Int) (h : o.singletonSeconds = none) :
    checkSendArgsPure name dataIn o { d with archiveSeconds := a1 } =
      checkSendArgsPure name dataIn o { d with archiveSeconds := a2 } := by
  unfold checkSendArgsPure
  have hok : ∀ a : Option Int, singletonArchiveOk o.singletonSeconds a = true := by
    intro a
    rw [h]
    rfl
  simp [hok, resolvedOptions_archive_irrel o d a1 a2]

/-- C10: the archive-interval guard in `checkSendArgs` reads only the raw
`singletonSeconds` option value: (1) a positive raw `singletonSeconds` makes
resolution fail whenever `defaults.archiveSeconds` is not truthy or the raw
value exceeds it — in particular a queue whose defaults lack `archiveSeconds`
rejects every seconds-windowed submission; (2) every successful resolution
satisfies the raw-value guard `singletonArchiveOk`; (3) with no raw
`singletonSeconds` (e.g. a window given solely via `singletonMinutes` or
`singletonHours`), the archive interval is never consulted: the result is
identical for every `archiveSeconds` value. -/
theorem c10_archive_guard_raw_only (w : WarnState) (name dataIn : String)
    (o : SendOptions) (d : Defaults) :
    (∀ s : Int, o.singletonSeconds = some s → 0 < s →
      ¬ (truthyI d.archiveSeconds = true ∧ s ≤ d.archiveSeconds.getD 0) →
      resolverOk ((checkSendArgsW w name dataIn (some o) d).2) = false)
    ∧ (∀ r, (checkSendArgsW w name dataIn (some o) d).2 = .ok r →
      singletonArchiveOk o.singletonSeconds d.archiveSeconds = true)
    ∧ (o.singletonSeconds = none → ∀ a1 a2 : Option Int,
      (checkSendArgsW w name dataIn (some o) { d with archiveSeconds := a1 }).2 =
        (checkSendArgsW w name dataIn (some o) { d with archiveSeconds := a2 }).2) := by
  refine ⟨?_, ?_, ?_⟩
  · intro s hs hpos hno
    cases hres : (checkSendArgsW w name dataIn (some o) d).2 with
    | error e => rfl
    | ok r =>
      exfalso
      rw [checkSendArgsW_snd] at hres
      have h2 : checkSendArgsPure name dataIn o d = .ok r := hres
      have hok := (checkSendArgsPure_ok_inv _ _ _ _ _ h2).2.2.2.2.2.2.2.2.2.2.1
      rw [hs] at hok
      have hstrue : truthyI (some s) = true := by
        simp only [truthyI, bne_iff_ne, ne_eq, decide_eq_true_eq]
        omega
      simp only [singletonArchiveOk, hstrue, Option.getD_some, Bool.not_true,
        Bool.false_or, Bool.and_eq_true, decide_eq_true_eq] at hok
      exact hno hok
  · intro r h
    rw [checkSendArgsW_snd] at h
    have h2 : checkSendArgsPure name dataIn o d = .ok r := h
    exact (checkSendArgsPure_ok_inv _ _ _ _ _ h2).2.2.2.2.2.2.2.2.2.2.1
  · intro h0 a1 a2
    rw [checkSendArgsW_snd, checkSendArgsW_snd]
    exact checkSendArgsPure_archive_irrel name dataIn o d a1 a2 h0

theorem c10_archive_guard_raw_only_witness :
    ({ singletonSeconds := some 5 } : SendOptions).singletonSeconds = some 5
    ∧ (0 : Int) < 5
    ∧ ¬ (truthyI (({} : Defaults).archiveSeconds) = true
        ∧ (5 : Int) ≤ (({} : Defaults).archiveSeconds).getD 0)
    ∧ resolverOk ((checkSendArgsW {} "q" "payload"
        (some { singletonSeconds := some 5 }) {}).2) = false :=
  ⟨rfl, by decide, by decide,
    (c10_archive_guard_raw_only {} "q" "payload" { singletonSeconds := some 5 } {}).1
      5 rfl (by decide) (by decide)⟩

/-! ### C6 -/

/-- C6 counterexample: with no expiration unit supplied and a defaults object
whose `expireIn` is unset (exactly what `PrismaPGBoss` passes, since it never
runs `getConfig` over its constructor options), resolution succeeds with
`expireIn` unset rather than the claimed "15 minutes" fallback. -/
theorem c6_counterexample_no_fifteen_minutes_fallback :
    resolvedExpireInOf ((checkSendArgsW {} "q" "payload" (some {}) {}).2) = some none
    ∧ ({} : Defaults).expireIn = none :=
  ⟨rfl, rfl⟩

/-- C6 amended: exactly one of the three expiration units is honored with hours
beating minutes beating seconds, each supplied unit must be ≥ 1 or resolution
fails, and absent all three the queue default's `expireIn` field is taken as-is
(which may itself be unset); the literal "15 minutes" fallback of
`applyExpirationConfig` is reachable only when no defaults object is supplied,
which never happens on the `checkSendArgs` path. -/
theorem c6_amended_expiration_chain (w : WarnState) (name dataIn : String)
    (o : SendOptions) (d : Defaults) :
    (∀ r, (checkSendArgsW w name dataIn (some o) d).2 = .ok r →
      r.options.expireIn = expireInResolved o (some d))
    ∧ (o.expireInHours.isSome = true →
      expireInResolved o (some d) = some (jsShowI o.expireInHours ++ " hours"))
    ∧ (o.expireInHours = none → o.expireInMinutes.isSome = true →
      expireInResolved o (some d) = some (jsShowI o.expireInMinutes ++ " minutes"))
    ∧ (o.expireInHours = none → o.expireInMinutes = none → o.expireInSeconds.isSome = true →
      expireInResolved o (some d) = some (jsShowI o.expireInSeconds ++ " seconds"))
    ∧ (o.expireInHours = none → o.expireInMinutes = none → o.expireInSeconds = none →
      expireInResolved o (some d) = d.expireIn)
    ∧ (∀ v : Int, v < 1 →
      (o.expireInHours = some v ∨ o.expireInMinutes = some v ∨ o.expireInSeconds = some v) →
      resolverOk ((checkSendArgsW w name dataIn (some o) d).2) = false) := by
  refine ⟨?_, ?_, ?_, ?_, ?_, ?_⟩
  · intro r h
    rw [checkSendArgsW_snd] at h
    have h2 : checkSendArgsPure name dataIn o d = .ok r := h
    have hr := (checkSendArgsPure_ok_inv _ _ _ _ _ h2).2.2.2.2.2.2.2.2.2.2.2
    subst hr
    exact resolvedOptions_expireIn o d
  · intro hH
    simp [expireInResolved, hH]
  · intro hH hM
    simp [expireInResolved, hH, hM]
  · intro hH hM hS
    simp [expireInResolved, hH, hM, hS]
  · intro hH hM hS
    simp [expireInResolved, hH, hM, hS]
  · intro v hv hcase
    cases hres : (checkSendArgsW w name dataIn (some o) d).2 with
    | error e => rfl
    | ok r =>
      exfalso
      rw [checkSendArgsW_snd] at hres
      have h2 : checkSendArgsPure name dataIn o d = .ok r := hres
      have hinv := checkSendArgsPure_ok_inv _ _ _ _ _ h2
      rcases hcase with hc | hc | hc
      · have := hinv.2.2.2.2.2.1
        rw [hc] at this
        have := unitOk_some_true v this
        omega
      · have := hinv.2.2.2.2.1
        rw [hc] at this
        have := unitOk_some_true v this
        omega
      · have := hinv.2.2.2.1
        rw [hc] at this
        have := unitOk_some_true v this
        omega

theorem c6_amended_expiration_chain_witness :
    (resolvedOptions ({ expireInHours := some 1, expireInMinutes := some 90 } : SendOptions)
        ({} : Defaults)).expireIn =
      expireInResolved ({ expireInHours := some 1, expireInMinutes := some 90 } : SendOptions)
        (some ({} : Defaults))
    ∧ expireInResolved ({ expireInHours := some 1, expireInMinutes := some 90 } : SendOptions)
        (some ({} : Defaults)) = some "1 hours" :=
  ⟨(c6_amended_expiration_chain {} "q" "p"
      ({ expireInHours := some 1, expireInMinutes := some 90 } : SendOptions)
      ({} : Defaults)).1 _ rfl, rfl⟩

/-! ### C5 -/

theorem jsOrI_of_falsy (a b : Option Int) (h : truthyI a = false) : jsOrI a b = b := by
  simp [jsOrI, h]

theorem retryResolved_delay_eq (c : SendOptions) (d : Defaults) :
    (retryResolved c d).1 =
      if truthyB (jsOrB c.retryBackoff d.retryBackoff)
          && !truthyI (jsOrI (jsOrI c.retryDelay d.retryDelay) (some 0))
        then some 1 else jsOrI (jsOrI c.retryDelay d.retryDelay) (some 0) := rfl

theorem retryResolved_limit_eq (c : SendOptions) (d : Defaults) :
    (retryResolved c d).2.1 =
      if truthyI (retryResolved c d).1
          && !truthyI (jsOrI (jsOrI c.retryLimit d.retryLimit) (some 0))
        then some 1 else jsOrI (jsOrI c.retryLimit d.retryLimit) (some 0) := rfl

/-- C5: after merging caller retry options with queue defaults under JS `||`
semantics, the two derived corrections hold on every successful resolution: a
truthy merged `retryBackoff` with a falsy (unset or zero) merged `retryDelay`
forces the resolved `retryDelay` to 1, and a nonzero resolved `retryDelay` with
a falsy merged `retryLimit` forces the resolved `retryLimit` to 1. -/
theorem c5_retry_corrections (w : WarnState) (name dataIn : String)
    (o : SendOptions) (d : Defaults) (r : Request)
    (h : (checkSendArgsW w name dataIn (some o) d).2 = .ok r) :
    (truthyB (jsOrB o.retryBackoff d.retryBackoff) = true →
      truthyI (jsOrI o.retryDelay d.retryDelay) = false →
      r.options.retryDelay = some 1)
    ∧ (∀ v : Int, r.options.retryDelay = some v → v ≠ 0 →
      truthyI (jsOrI o.retryLimit d.retryLimit) = false →
      r.options.retryLimit = some 1) := by
  rw [checkSendArgsW_snd] at h
  have h2 : checkSendArgsPure name dataIn o d = .ok r := h
  have hr := (checkSendArgsPure_ok_inv _ _ _ _ _ h2).2.2.2.2.2.2.2.2.2.2.2
  subst hr
  constructor
  · intro hb hd
    show (resolvedOptions o d).retryDelay = some 1
    rw [resolvedOptions_retryDelay, retryResolved_delay_eq]
    have h1 : jsOrI (jsOrI o.retryDelay d.retryDelay) (some 0) = some 0 :=
      jsOrI_of_falsy _ _ hd
    rw [h1, hb]
    simp [truthyI]
  · intro v hv hvne hl
    have hv2 : (resolvedOptions o d).retryDelay = some v := hv
    rw [resolvedOptions_retryDelay] at hv2
    show (resolvedOptions o d).retryLimit = some 1
    rw [resolvedOptions_retryLimit, retryResolved_limit_eq, hv2]
    have hl0 : jsOrI (jsOrI o.retryLimit d.retryLimit) (some 0) = some 0 :=
      jsOrI_of_falsy _ _ hl
    rw [hl0]
    simp [truthyI, hvne]

theorem c5_retry_corrections_witness :
    truthyB (jsOrB (({ retryBackoff := some true } : SendOptions).retryBackoff)
        (({} : Defaults).retryBackoff)) = true
    ∧ (resolvedOptions ({ retryBackoff := some true } : SendOptions)
        ({} : Defaults)).retryDelay = some 1
    ∧ (resolvedOptions ({ retryDelay := some 5 } : SendOptions)
        ({} : Defaults)).retryDelay = some 5
    ∧ (resolvedOptions ({ retryDelay := some 5 } : SendOptions)
        ({} : Defaults)).retryLimit = some 1 :=
  ⟨by decide,
   (c5_retry_corrections {} "q" "p" ({ retryBackoff := some true } : SendOptions)
     ({} : Defaults) _ rfl).1 (by decide) (by decide),
   by decide,
   (c5_retry_corrections {} "q" "p" ({ retryDelay := some 5 } : SendOptions)
     ({} : Defaults) _ rfl).2 5 (by decide) (by decide) (by decide)⟩

/-! ### C2 -/

theorem buildValues_id (id name dataIn : String) (optionsIn : Option SendOptions) :
    (buildValues id name dataIn optionsIn).id = id := by
  cases optionsIn <;> rfl

theorem buildRow_id (v : InsertValues) (nowEpoch : Int) :
    (buildRow v nowEpoch).id = v.id := rfl

theorem insert_two_conflicting (table : List JobRow) (row1 row2 : JobRow)
    (hn : row1.name = row2.name) (hkey : row1.singletonKey = row2.singletonKey)
    (hksome : row2.singletonKey.isSome = true)
    (hon : row1.singletonOn = row2.singletonOn) (honsome : row2.singletonOn.isSome = true)
    (hclean : table.any (fun x => conflicts x row1) = false) :
    insertRow table row1 = (table ++ [row1], some row1.id)
    ∧ insertRow (table ++ [row1]) row2 = (table ++ [row1], none)
    ∧ matchCount (table ++ [row1]) row2 = 1 := by
  have hc12 : conflicts row1 row2 = true := by
    unfold conflicts
    rw [hn, hkey, hon, hksome, honsome]
    simp
  have hfun : (fun x => conflicts x row2) = (fun x => conflicts x row1) := by
    funext x
    unfold conflicts
    rw [hn, hkey, hon]
  have hclean2 : table.any (fun x => conflicts x row2) = false := by
    rw [hfun]
    exact hclean
  refine ⟨?_, ?_, ?_⟩
  · simp [insertRow, hclean]
  · have hany : (table ++ [row1]).any (fun x => conflicts x row2) = true := by
      rw [List.any_append]
      simp [hc12]
    simp [insertRow, hany]
  · unfold matchCount
    rw [List.filter_append]
    have h1 : table.filter (fun x => conflicts x row2) = [] := by
      rw [List.filter_eq_nil_iff]
      intro x hx
      have := List.any_eq_false.mp hclean2 x hx
      simpa using this
    rw [h1]
    simp [hc12]

/-- C2: `createJob` returns the generated identifier exactly when the row is
actually inserted — a singleton-uniqueness conflict (same name, same non-null
`singletonKey`, same non-null `singletonOn`) leaves the table unchanged,
returns no identifier, and raises no error (the insert is total and
conflict-suppressing); and two enqueues with identical name and singleton key
whose timestamps land in the same `singletonSeconds` bucket produce exactly one
returned identifier and exactly one matching row. -/
theorem c2_conflict_do_nothing_single_row :
    (∀ (table : List JobRow) (nowEpoch : Int) (id name dataIn : String)
        (optionsIn : Option SendOptions),
      (createJob table nowEpoch id name dataIn optionsIn =
          (table ++ [buildRow (buildValues id name dataIn optionsIn) nowEpoch], some id)
        ∧ table.any
            (fun x => conflicts x (buildRow (buildValues id name dataIn optionsIn) nowEpoch))
            = false)
      ∨ (createJob table nowEpoch id name dataIn optionsIn = (table, none)
        ∧ table.any
            (fun x => conflicts x (buildRow (buildValues id name dataIn optionsIn) nowEpoch))
            = true))
    ∧ (∀ (table : List JobRow) (now1 now2 : Int) (id1 id2 name dataIn : String)
        (o : SendOptions) (s : Int) (k : String),
      o.singletonKey = some k → o.singletonSeconds = some s →
      singletonOnOf o.singletonSeconds
          (if o.singletonOffset.isSome then (1 : Int) else 0) now1 =
        singletonOnOf o.singletonSeconds
          (if o.singletonOffset.isSome then (1 : Int) else 0) now2 →
      table.any
          (fun x => conflicts x (buildRow (buildValues id1 name dataIn (some o)) now1))
          = false →
      (createJob table now1 id1 name dataIn (some o)).2 = some id1
      ∧ (createJob (createJob table now1 id1 name dataIn (some o)).1
          now2 id2 name dataIn (some o)).2 = none
      ∧ matchCount (createJob (createJob table now1 id1 name dataIn (some o)).1
          now2 id2 name dataIn (some o)).1
          (buildRow (buildValues id2 name dataIn (some o)) now2) = 1) := by
  constructor
  · intro table nowEpoch id name dataIn optionsIn
    by_cases h : table.any
        (fun x => conflicts x (buildRow (buildValues id name dataIn optionsIn) nowEpoch)) = true
    · right
      exact ⟨by simp [createJob, insertRow, h], h⟩
    · left
      have h0 : table.any
          (fun x => conflicts x (buildRow (buildValues id name dataIn optionsIn) nowEpoch)) =
          false := by
        revert h
        cases table.any
            (fun x => conflicts x (buildRow (buildValues id name dataIn optionsIn) nowEpoch)) <;>
          simp
      exact ⟨by simp [createJob, insertRow, h0, buildRow_id, buildValues_id], h0⟩
  · intro table now1 now2 id1 id2 name dataIn o s k hk hss hbkt hclean
    have hksome : (buildRow (buildValues id2 name dataIn (some o)) now2).singletonKey.isSome
        = true := by
      show (o.singletonKey).isSome = true
      rw [hk]
      rfl
    have honsome : (buildRow (buildValues id2 name dataIn (some o)) now2).singletonOn.isSome
        = true := by
      show (singletonOnOf o.singletonSeconds
        (if o.singletonOffset.isSome then (1 : Int) else 0) now2).isSome = true
      rw [hss]
      rfl
    have hmain := insert_two_conflicting table
      (buildRow (buildValues id1 name dataIn (some o)) now1)
      (buildRow (buildValues id2 name dataIn (some o)) now2)
      rfl rfl hksome hbkt honsome hclean
    obtain ⟨e1, e2, e3⟩ := hmain
    have c1 : createJob table now1 id1 name dataIn (some o) =
        (table ++ [buildRow (buildValues id1 name dataIn (some o)) now1], some id1) := e1
    refine ⟨by rw [c1], ?_, ?_⟩
    · show (insertRow (createJob table now1 id1 name dataIn (some o)).1
        (buildRow (buildValues id2 name dataIn (some o)) now2)).2 = none
      rw [c1]
      rw [e2]
    · show matchCount (insertRow (createJob table now1 id1 name dataIn (some o)).1
          (buildRow (buildValues id2 name dataIn (some o)) now2)).1
        (buildRow (buildValues id2 name dataIn (some o)) now2) = 1
      rw [c1]
      rw [e2]
      exact e3

theorem c2_conflict_do_nothing_single_row_witness :
    ({ singletonKey := some "k", singletonSeconds := some 10 } : SendOptions).singletonKey
        = some "k"
    ∧ ({ singletonKey := some "k", singletonSeconds := some 10 } : SendOptions).singletonSeconds
        = some 10
    ∧ (createJob [] 5 "a" "q" "d"
        (some { singletonKey := some "k", singletonSeconds := some 10 })).2 = some "a"
    ∧ (createJob (createJob [] 5 "a" "q" "d"
          (some { singletonKey := some "k", singletonSeconds := some 10 })).1
        9 "b" "q" "d"
        (some { singletonKey := some "k", singletonSeconds := some 10 })).2 = none
    ∧ matchCount (createJob (createJob [] 5 "a" "q" "d"
          (some { singletonKey := some "k", singletonSeconds := some 10 })).1
        9 "b" "q" "d"
        (some { singletonKey := some "k", singletonSeconds := some 10 })).1
        (buildRow (buildValues "b" "q" "d"
          (some { singletonKey := some "k", singletonSeconds := some 10 })) 9) = 1 := by
  have happ := (c2_conflict_do_nothing_single_row).2 [] 5 9 "a" "b" "q" "d"
    { singletonKey := some "k", singletonSeconds := some 10 } 10 "k"
    rfl rfl (by decide) (by decide)
  exact ⟨rfl, rfl, happ.1, happ.2.1, happ.2.2⟩

/-! ### C7 -/

theorem resolvedOptions_nextSlot (o : SendOptions) (d : Defaults) (b : Bool) :
    resolvedOptions { o with singletonNextSlot := some b } d =
      { resolvedOptions o d with singletonNextSlot := some b } := by
  simp only [resolvedOptions, applyCompletionConfig_eq, applySingletonKeyConfig_eq]
  try rfl

theorem buildValues_resolved_nextSlot (id n dt : String) (o : SendOptions) (d : Defaults)
    (b1 b2 : Bool) :
    buildValues id n dt (some (resolvedOptions { o with singletonNextSlot := some b1 } d)) =
      buildValues id n dt (some (resolvedOptions { o with singletonNextSlot := some b2 } d)) := by
  rw [resolvedOptions_nextSlot, resolvedOptions_nextSlot]
  rfl

theorem checkSendArgsPure_map_nextSlot (name dataIn : String) (o : SendOptions)
    (d : Defaults) (b1 b2 : Bool) (id : String) :
    Except.map (fun r => buildValues id r.name r.data (some r.options))
      (checkSendArgsPure name dataIn { o with singletonNextSlot := some b1 } d) =
    Except.map (fun r => buildValues id r.name r.data (some r.options))
      (checkSendArgsPure name dataIn { o with singletonNextSlot := some b2 } d) := by
  unfold checkSendArgsPure
  dsimp only
  by_cases h0 : name == "" <;> simp only [h0, Bool.false_eq_true, if_true, if_false]
  by_cases h1 : retryDelayOk o.retryDelay <;>
    by_cases h2 : retryLimitOk o.retryLimit <;>
    simp [h1, h2]
  by_cases h3 : unitOk o.expireInSeconds <;>
    by_cases h4 : unitOk o.expireInMinutes <;>
    by_cases h5 : unitOk o.expireInHours <;>
    simp [h3, h4, h5]
  by_cases h6 : unitOk o.retentionSeconds <;>
    by_cases h7 : unitOk o.retentionMinutes <;>
    by_cases h8 : unitOk o.retentionHours <;>
    by_cases h9 : unitOk o.retentionDays <;>
    simp [h6, h7, h8, h9]
  by_cases hA : singletonArchiveOk o.singletonSeconds d.archiveSeconds <;>
    simp [hA, Except.map]
  exact buildValues_resolved_nextSlot id name dataIn o d b1 b2

theorem resolvedOptions_singletonOffset (o : SendOptions) (d : Defaults) :
    (resolvedOptions o d).singletonOffset = o.singletonOffset := by
  simp only [resolvedOptions, applyCompletionConfig_eq, applySingletonKeyConfig_eq]
  try rfl

theorem buildValues_singletonOffset (id n dt : String) (o : SendOptions) :
    (buildValues id n dt (some o)).singletonOffset =
      (if o.singletonOffset.isSome then (1 : Int) else 0) := rfl

theorem buildValues_singletonSeconds (id n dt : String) (o : SendOptions) :
    (buildValues id n dt (some o)).singletonSeconds = o.singletonSeconds := rfl

theorem buildRow_singletonOn (v : InsertValues) (nowEpoch : Int) :
    (buildRow v nowEpoch).singletonOn =
      singletonOnOf v.singletonSeconds v.singletonOffset nowEpoch := rfl

/-- C7: `sendThrottled` (`singletonNextSlot = false`) and `sendDebounced`
(`singletonNextSlot = true`) with the same name, data, base options, window
seconds and key go through the same resolve-then-insert path: (1) the resolved
insert parameters are identical once the same generated identifier is plugged
in (the `singletonNextSlot` flag reaches neither the values tuple nor the SQL);
(2) the `singletonOffset` bind parameter is 0 whenever the base options carry no
`singletonOffset` member; (3) the stored `singletonOn` follows the bucket
formula `singletonSeconds * floor((now + 0) / singletonSeconds)`; and (4) a
throttled send followed by a debounced send in the same window insert exactly
one row and return exactly one identifier. -/
theorem c7_throttle_debounce_equivalence :
    (∀ (w : WarnState) (cfg : Defaults) (n dt : String) (oIn : Option SendOptions)
        (seconds : Int) (key id : String),
      Except.map (fun r0 => buildValues id r0.name r0.data (some r0.options))
          (sendThrottledResolve w cfg n dt oIn seconds key).2 =
        Except.map (fun r0 => buildValues id r0.name r0.data (some r0.options))
          (sendDebouncedResolve w cfg n dt oIn seconds key).2)
    ∧ (∀ (w : WarnState) (cfg : Defaults) (n dt : String) (oIn : Option SendOptions)
        (seconds : Int) (key : String) (r : Request) (id1 : String),
      (oIn.getD {}).singletonOffset = none →
      (sendThrottledResolve w cfg n dt oIn seconds key).2 = .ok r →
      (buildValues id1 r.name r.data (some r.options)).singletonOffset = 0)
    ∧ (∀ (o : SendOptions) (id n dt : String) (nowEpoch sS : Int),
      o.singletonSeconds = some sS → o.singletonOffset = none →
      (buildRow (buildValues id n dt (some o)) nowEpoch).singletonOn =
        some (sS * Int.fdiv (nowEpoch + 0) sS))
    ∧ (∀ (w : WarnState) (cfg : Defaults) (n dt : String) (oIn : Option SendOptions)
        (seconds : Int) (key : String) (r : Request) (table : List JobRow)
        (now1 now2 : Int) (id1 id2 : String) (sS : Int) (k : String),
      (sendThrottledResolve w cfg n dt oIn seconds key).2 = .ok r →
      r.options.singletonKey = some k →
      r.options.singletonSeconds = some sS →
      singletonOnOf r.options.singletonSeconds
          (if r.options.singletonOffset.isSome then (1 : Int) else 0) now1 =
        singletonOnOf r.options.singletonSeconds
          (if r.options.singletonOffset.isSome then (1 : Int) else 0) now2 →
      table.any (fun x =>
          conflicts x (buildRow (buildValues id1 r.name r.data (some r.options)) now1)) =
        false →
      (sendThrottledRun w cfg n dt oIn seconds key table now1 id1).2.2 = .ok (some id1)
      ∧ (sendDebouncedRun w cfg n dt oIn seconds key
          (sendThrottledRun w cfg n dt oIn seconds key table now1 id1).2.1 now2 id2).2.2 =
          .ok none
      ∧ matchCount (sendDebouncedRun w cfg n dt oIn seconds key
            (sendThrottledRun w cfg n dt oIn seconds key table now1 id1).2.1 now2 id2).2.1
          (buildRow (buildValues id2 r.name r.data (some r.options)) now2) = 1) := by
  have hT : ∀ (w : WarnState) (cfg : Defaults) (n dt : String) (oIn : Option SendOptions)
      (seconds : Int) (key : String),
      (sendThrottledResolve w cfg n dt oIn seconds key).2 =
        checkSendArgsPure n dt
          { oIn.getD {} with
            singletonSeconds := some seconds
            singletonKey := some key
            singletonNextSlot := some false } cfg :=
    fun w cfg n dt oIn seconds key =>
      checkSendArgsW_snd w n dt
        (some { oIn.getD {} with
          singletonSeconds := some seconds
          singletonNextSlot := some false
          singletonKey := some key }) cfg
  have hD : ∀ (w : WarnState) (cfg : Defaults) (n dt : String) (oIn : Option SendOptions)
      (seconds : Int) (key : String),
      (sendDebouncedResolve w cfg n dt oIn seconds key).2 =
        checkSendArgsPure n dt
          { oIn.getD {} with
            singletonSeconds := some seconds
            singletonKey := some key
            singletonNextSlot := some true } cfg :=
    fun w cfg n dt oIn seconds key =>
      checkSendArgsW_snd w n dt
        (some { oIn.getD {} with
          singletonSeconds := some seconds
          singletonNextSlot := some true
          singletonKey := some key }) cfg
  refine ⟨?_, ?_, ?_, ?_⟩
  · intro w cfg n dt oIn seconds key id
    rw [hT, hD]
    exact checkSendArgsPure_map_nextSlot n dt
      { oIn.getD {} with
        singletonSeconds := some seconds
        singletonKey := some key }
      cfg false true id
  · intro w cfg n dt oIn seconds key r id1 hoffIn h1
    rw [hT] at h1
    have hinv := checkSendArgsPure_ok_inv _ _ _ _ _ h1
    have hr := hinv.2.2.2.2.2.2.2.2.2.2.2
    subst hr
    rw [buildValues_singletonOffset, resolvedOptions_singletonOffset]
    have hoff2 : ({ oIn.getD {} with
        singletonSeconds := some seconds
        singletonKey := some key
        singletonNextSlot := some false } :
        SendOptions).singletonOffset = none := hoffIn
    rw [hoff2]
    rfl
  · intro o id n dt nowEpoch sS hss hoff
    rw [buildRow_singletonOn, buildValues_singletonSeconds, buildValues_singletonOffset,
      hss, hoff]
    rfl
  · intro w cfg n dt oIn seconds key r table now1 now2 id1 id2 sS k h1 hk hss hbkt hclean
    have hmapEq : Except.map (fun r0 => buildValues id2 r0.name r0.data (some r0.options))
        (sendThrottledResolve w cfg n dt oIn seconds key).2 =
      Except.map (fun r0 => buildValues id2 r0.name r0.data (some r0.options))
        (sendDebouncedResolve w cfg n dt oIn seconds key).2 := by
      rw [hT, hD]
      exact checkSendArgsPure_map_nextSlot n dt
        { oIn.getD {} with
          singletonSeconds := some seconds
          singletonKey := some key }
        cfg false true id2
    cases hD2 : (sendDebouncedResolve w cfg n dt oIn seconds key).2 with
    | error e =>
      exfalso
      rw [h1, hD2] at hmapEq
      simp [Except.map] at hmapEq
    | ok r2 =>
      rw [h1, hD2] at hmapEq
      simp only [Except.map] at hmapEq
      have hR2 : buildValues id2 r2.name r2.data (some r2.options) =
          buildValues id2 r.name r.data (some r.options) :=
        (Except.ok.inj hmapEq).symm
      have hksome : (buildRow (buildValues id2 r.name r.data (some r.options))
          now2).singletonKey.isSome = true := by
        show (r.options.singletonKey).isSome = true
        rw [hk]
        rfl
      have honsome : (buildRow (buildValues id2 r.name r.data (some r.options))
          now2).singletonOn.isSome = true := by
        show (singletonOnOf r.options.singletonSeconds
          (if r.options.singletonOffset.isSome then (1 : Int) else 0) now2).isSome = true
        rw [hss]
        rfl
      have hmain := insert_two_conflicting table
        (buildRow (buildValues id1 r.name r.data (some r.options)) now1)
        (buildRow (buildValues id2 r.name r.data (some r.options)) now2)
        rfl rfl hksome hbkt honsome hclean
      obtain ⟨e1, e2, e3⟩ := hmain
      have ecreate : createJob table now1 id1 r.name r.data (some r.options) =
          (table ++ [buildRow (buildValues id1 r.name r.data (some r.options)) now1],
            some id1) := by
        show insertRow table
          (buildRow (buildValues id1 r.name r.data (some r.options)) now1) = _
        rw [e1, buildRow_id, buildValues_id]
      have hpairT : sendThrottledResolve w cfg n dt oIn seconds key =
          ((sendThrottledResolve w cfg n dt oIn seconds key).1, Except.ok r) := by
        rw [← h1]
      have hpairD : sendDebouncedResolve w cfg n dt oIn seconds key =
          ((sendDebouncedResolve w cfg n dt oIn seconds key).1, Except.ok r2) := by
        rw [← hD2]
      have htab : (sendThrottledRun w cfg n dt oIn seconds key table now1 id1).2.1 =
          table ++ [buildRow (buildValues id1 r.name r.data (some r.options)) now1] := by
        unfold sendThrottledRun
        rw [hpairT]
        dsimp only
        rw [ecreate]
      have ecreate2 : createJob
          (table ++ [buildRow (buildValues id1 r.name r.data (some r.options)) now1])
          now2 id2 r2.name r2.data (some r2.options) =
          (table ++ [buildRow (buildValues id1 r.name r.data (some r.options)) now1],
            none) := by
        show insertRow
          (table ++ [buildRow (buildValues id1 r.name r.data (some r.options)) now1])
          (buildRow (buildValues id2 r2.name r2.data (some r2.options)) now2) = _
        rw [hR2]
        exact e2
      refine ⟨?_, ?_, ?_⟩
      · unfold sendThrottledRun
        rw [hpairT]
        dsimp only
        rw [ecreate]
      · rw [htab]
        unfold sendDebouncedRun
        rw [hpairD]
        dsimp only
        rw [ecreate2]
      · rw [htab]
        unfold sendDebouncedRun
        rw [hpairD]
        dsimp only
        rw [ecreate2]
        exact e3

theorem c7_throttle_debounce_equivalence_witness :
    (resolvedOptions ({ singletonSeconds := some 10, singletonNextSlot := some false, singletonKey := some "k" } : SendOptions) ({ archiveSeconds := some 1000 } : Defaults)).singletonKey = some "k"
    ∧ (resolvedOptions ({ singletonSeconds := some 10, singletonNextSlot := some false, singletonKey := some "k" } : SendOptions) ({ archiveSeconds := some 1000 } : Defaults)).singletonSeconds = some 600
    ∧ (sendThrottledRun {} { archiveSeconds := some 1000 } "q" "d" none 10 "k" [] 5 "a").2.2 =
        .ok (some "a")
    ∧ (sendDebouncedRun {} { archiveSeconds := some 1000 } "q" "d" none 10 "k"
        (sendThrottledRun {} { archiveSeconds := some 1000 } "q" "d" none 10 "k" [] 5 "a").2.1
        9 "b").2.2 = .ok none
    ∧ matchCount (sendDebouncedRun {} { archiveSeconds := some 1000 } "q" "d" none 10 "k"
        (sendThrottledRun {} { archiveSeconds := some 1000 } "q" "d" none 10 "k" [] 5 "a").2.1
        9 "b").2.1
        (buildRow (buildValues "b" "q" "d" (some (resolvedOptions ({ singletonSeconds := some 10, singletonNextSlot := some false, singletonKey := some "k" } : SendOptions) ({ archiveSeconds := some 1000 } : Defaults)))) 9) = 1 := by
  have happ := (c7_throttle_debounce_equivalence).2.2.2 {} { archiveSeconds := some 1000 }
    "q" "d" none 10 "k"
    (⟨"q", "d", resolvedOptions ({ singletonSeconds := some 10, singletonNextSlot := some false, singletonKey := some "k" } : SendOptions) ({ archiveSeconds := some 1000 } : Defaults)⟩ : Request)
    [] 5 9 "a" "b" 600 "k" rfl rfl rfl rfl rfl
  exact ⟨rfl, rfl, happ.1, happ.2.1, happ.2.2⟩

/-! ### C8 -/

theorem frame_one (h0 : Heap) (x v : SendOptions) (r : Nat) (hr : r < h0.length) :
    ((h0 ++ [x]).set h0.length v).get? r = h0.get? r := by
  rw [List.get?_set_ne v _ (by omega)]
  exact List.get?_append hr

/-- C8: neither `checkSendArgs` nor `checkInsertArgs` mutates the caller's
options object(s): in the heap model — where the spread copy of line 114
(resp. 163) is an allocation at a fresh index and every subsequent in-place
update is a write to that index — the heap entry holding the caller's object is
unchanged after the call, whether resolution succeeds or fails. -/
theorem c8_caller_options_never_mutated :
    (∀ (w : WarnState) (h : Heap) (r : Nat) (name : String) (d : Defaults),
      r < h.length →
      ((checkSendArgsHeap w h r name d).2.1).get? r = h.get? r)
    ∧ (∀ (rs : List Nat) (h : Heap) (r : Nat), r < h.length →
      ((checkInsertArgsHeap h rs).1).get? r = h.get? r) := by
  constructor
  · intro w h r name d hr
    unfold checkSendArgsHeap
    cases hg : h.get? r with
    | none => exact hg
    | some opts =>
      dsimp only
      repeat' split
      all_goals simp only [List.set_set]
      all_goals
        first
          | exact hg
          | (rw [List.get?_append hr]; exact hg)
          | (rw [frame_one _ _ _ _ hr]; exact hg)
  · intro rs
    induction rs with
    | nil =>
      intro h r hr
      rfl
    | cons x rest ih =>
      intro h r hr
      show ((checkInsertArgsHeap
          ((h ++ [(h.get? x).getD {}]).set h.length
            (applySingletonKeyConfig ((h.get? x).getD {}))) rest).1).get? r = h.get? r
      rw [ih _ r (by simp; omega)]
      exact frame_one h _ _ r hr

theorem c8_caller_options_never_mutated_witness :
    (0 : Nat) < ([({ retryDelay := some 5, useSingletonQueue := some true, singletonKey := some "k" } : SendOptions)] : Heap).length
    ∧ ((checkSendArgsHeap {} [({ retryDelay := some 5, useSingletonQueue := some true, singletonKey := some "k" } : SendOptions)] 0 "q" {}).2.1).get? 0 =
      ([({ retryDelay := some 5, useSingletonQueue := some true, singletonKey := some "k" } : SendOptions)] : Heap).get? 0
    ∧ ((checkInsertArgsHeap [({ retryDelay := some 5, useSingletonQueue := some true, singletonKey := some "k" } : SendOptions)] [0]).1).get? 0 =
      ([({ retryDelay := some 5, useSingletonQueue := some true, singletonKey := some "k" } : SendOptions)] : Heap).get? 0 :=
  ⟨by decide,
   c8_caller_options_never_mutated.1 {} _ 0 "q" {} (by decide),
   c8_caller_options_never_mutated.2 [0] _ 0 (by decide)⟩

end PgBossPrisma
